import Mathlib

/-!
Shallow embedding of the vHive orchestrator memory manager (Go package
manager): a userspace page-fault handler that serves faults of microVMs
from a memory-mapped snapshot of the guest memory.

Modelling conventions: Go maps become association lists; unsigned 64-bit
arithmetic becomes Nat with explicit reduction modulo 2 ^ 64; fallible
syscalls become explicit environment parameters recording their outcome;
a Go runtime panic or log.Fatal becomes an absent result (Option.none) or
a Boolean fatal flag.
-/

namespace VhiveMM

/-- Lookup in a Go map modelled as an association list (first binding
wins; insertion keeps at most one binding per key). -/
def mapLookup {α β : Type} [DecidableEq α] : List (α × β) → α → Option β
  | [], _ => none
  | (k, v) :: rest, key => if k = key then some v else mapLookup rest key

/-- Go map deletion, delete(m, key). -/
def mapErase {α β : Type} [DecidableEq α] : List (α × β) → α → List (α × β)
  | [], _ => []
  | (k, v) :: rest, key =>
    if k = key then mapErase rest key else (k, v) :: mapErase rest key

/-- Go map insertion, m[key] = v (replaces any existing binding). -/
def mapInsert {α β : Type} [DecidableEq α] (m : List (α × β)) (key : α) (v : β) :
    List (α × β) :=
  (key, v) :: mapErase m key

theorem mapLookup_erase_self {α β : Type} [DecidableEq α] (m : List (α × β)) (key : α) :
    mapLookup (mapErase m key) key = none := by
  induction m with
  | nil => rfl
  | cons kv rest ih =>
    obtain ⟨k, v⟩ := kv
    by_cases h : k = key
    · simpa [mapErase, h] using ih
    · simpa [mapErase, mapLookup, h] using ih

theorem mapLookup_erase_ne {α β : Type} [DecidableEq α] (m : List (α × β)) (key k : α)
    (h : k ≠ key) : mapLookup (mapErase m key) k = mapLookup m k := by
  induction m with
  | nil => rfl
  | cons kv rest ih =>
    obtain ⟨a, b⟩ := kv
    by_cases ha : a = key
    · have hak : ¬a = k := by
        intro hh
        exact h (hh ▸ ha)
      have hka : ¬key = k := fun hh => h hh.symm
      simp [mapErase, mapLookup, ha, hak, hka, ih]
    · by_cases hk : a = k
      · simp [mapErase, mapLookup, ha, hk, h]
      · simp [mapErase, mapLookup, ha, hk, ih]

theorem mapLookup_insert_self {α β : Type} [DecidableEq α] (m : List (α × β)) (key : α)
    (v : β) : mapLookup (mapInsert m key v) key = some v := by
  simp [mapInsert, mapLookup]

theorem mapLookup_insert_ne {α β : Type} [DecidableEq α] (m : List (α × β)) (key k : α)
    (v : β) (h : k ≠ key) : mapLookup (mapInsert m key v) k = mapLookup m k := by
  have hk : ¬key = k := fun hh => h hh.symm
  simp [mapInsert, mapLookup, hk, mapLookup_erase_ne m key k h]

/-- Per-VM snapshot state (struct SnapshotState).  The mmapped guest
memory byte slice s.guestMem (of length s.guestMemSize) is modelled by
the host base address of the mapping; the sync.Once latch
startAddressOnce is modelled by the Boolean startAddressOnceDone; the
fdClosed flag records whether UserFaultFD.Close() has run. -/
structure SnapshotState where
  guestMemFileName : String
  guestMemSize : Nat
  guestMemHostBase : Nat
  mapped : Bool
  userFaultFD : Option Int
  fdClosed : Bool
  startAddress : Nat
  startAddressOnceDone : Bool
  deriving DecidableEq

/-- Wrapping unsigned 64-bit subtraction a - b of two uint64 values
(both below 2 ^ 64), reducing modulo 2 ^ 64. -/
def sub64 (a b : Nat) : Nat := (a + 2 ^ 64 - b) % 2 ^ 64

/-- The C struct uffdio_copy request built by installRegion and handed
to the UFFDIO_COPY ioctl. -/
structure UffdioCopy where
  mode : Nat
  copy : Int
  src : Nat
  dst : Nat
  len : Nat
  deriving DecidableEq

/-- func installRegion(fd int, src, dst, mode, len uint64): fills a
struct uffdio_copy whose len field is pageSize * len bytes (uint64,
wrapping) and issues the UFFDIO_COPY ioctl; the embedding returns the
request passed to the kernel. -/
def installRegion (pageSize src dst mode len : Nat) : UffdioCopy :=
  { mode := mode, copy := 0, src := src, dst := dst, len := pageSize * len % 2 ^ 64 }

/-- func (v *MemoryManager) servePageFault(fd int, address uint64):
offset := address - state.startAddress (uint64, wrapping);
src := uint64(uintptr(unsafe.Pointer(&state.guestMem[offset]))), the
host address of byte offset of the mapping;
dst := uint64(int64(address) & ^(int64(pageSize) - 1)), which as a
64-bit pattern is address AND (2 ^ 64 - pageSize);
then installRegion(fd, src, dst, mode, 1) with mode = 0.
Indexing state.guestMem[offset] panics fatally (and nothing is
installed) unless offset < len(guestMem) = guestMemSize; the embedding
returns none on that panic. -/
def servePageFault (pageSize : Nat) (s : SnapshotState) (address : Nat) :
    Option UffdioCopy :=
  let offset := sub64 address s.startAddress
  if offset < s.guestMemSize then
    some (installRegion pageSize ((s.guestMemHostBase + offset) % 2 ^ 64)
      (address &&& (2 ^ 64 - pageSize)) 0 1)
  else
    none

/-- Clearing the low k bits of a 64-bit value: AND with the mask
2 ^ 64 - 2 ^ k (the two's-complement pattern of -(2 ^ k)) rounds the
value down to a multiple of 2 ^ k. -/
theorem land_high_mask (k x : Nat) (hk : k ≤ 64) (hx : x < 2 ^ 64) :
    x &&& (2 ^ 64 - 2 ^ k) = x - x % 2 ^ k := by
  have hpow : 2 ^ (64 - k) * 2 ^ k = 2 ^ 64 := by
    rw [← pow_add]
    congr 1
    omega
  have hone : 1 ≤ 2 ^ (64 - k) := Nat.one_le_two_pow
  have hmask : 2 ^ 64 - 2 ^ k = (2 ^ (64 - k) - 1) <<< k := by
    rw [Nat.shiftLeft_eq, Nat.sub_mul, one_mul, hpow]
  have hdiv := Nat.mod_add_div x (2 ^ k)
  have hrhs : x - x % 2 ^ k = (x >>> k) <<< k := by
    rw [Nat.shiftLeft_eq, Nat.shiftRight_eq_div_pow, Nat.mul_comm]
    omega
  rw [hmask, hrhs]
  apply Nat.eq_of_testBit_eq
  intro i
  rw [Nat.testBit_and, Nat.testBit_shiftLeft, Nat.testBit_shiftLeft,
    Nat.testBit_shiftRight]
  by_cases hik : k ≤ i
  · have hki : k + (i - k) = i := by omega
    rw [hki, Nat.testBit_two_pow_sub_one]
    by_cases hi64 : i < 64
    · have h1 : i - k < 64 - k := by omega
      simp [hik, h1, GE.ge.le, ge_iff_le]
    · have hfalse : x.testBit i = false := by
        apply Nat.testBit_lt_two_pow
        calc x < 2 ^ 64 := hx
          _ ≤ 2 ^ i := Nat.pow_le_pow_right (by omega) (by omega)
      simp [hfalse]
  · simp [hik, ge_iff_le]

/-- C1: for every fault served with a latched base, the page install is
invoked with src the host address of byte faultAddr - baseGuestAddress
of the snapshot mapping, dst equal to faultAddr with its low
log2(pageSize) bits cleared (align-down to the page), a length of
exactly one page (pageSize * 1 bytes), and mode 0. -/
theorem servePageFault_install_args (pageSize k : Nat) (s : SnapshotState)
    (address : Nat) (uc : UffdioCopy)
    (hps : pageSize = 2 ^ k) (hk : k < 64)
    (hlatched : s.startAddressOnceDone = true)
    (hbase : s.startAddress ≤ address) (haddr : address < 2 ^ 64)
    (hmap : s.guestMemHostBase + s.guestMemSize ≤ 2 ^ 64)
    (hserve : servePageFault pageSize s address = some uc) :
    uc.src = s.guestMemHostBase + (address - s.startAddress) ∧
    uc.dst = address - address % pageSize ∧
    uc.len = pageSize * 1 ∧
    uc.mode = 0 := by
  have hoff : sub64 address s.startAddress = address - s.startAddress := by
    unfold sub64
    have he : address + 2 ^ 64 - s.startAddress = (address - s.startAddress) + 2 ^ 64 := by
      omega
    rw [he, Nat.add_mod_right, Nat.mod_eq_of_lt (by omega)]
  simp only [servePageFault, installRegion, hoff] at hserve
  by_cases hlt : address - s.startAddress < s.guestMemSize
  · rw [if_pos hlt] at hserve
    injection hserve with huc
    subst huc
    refine ⟨?_, ?_, ?_, rfl⟩
    · exact Nat.mod_eq_of_lt (by omega)
    · rw [hps]
      exact land_high_mask k address (by omega) haddr
    · show pageSize * 1 % 2 ^ 64 = pageSize * 1
      have hlt64 : pageSize < 2 ^ 64 := by
        rw [hps]
        exact Nat.pow_lt_pow_right (by omega) hk
      rw [Nat.mod_eq_of_lt (by omega)]
  · rw [if_neg hlt] at hserve
    exact absurd hserve (by simp)

/-- Concrete snapshot state used by the witnesses: an 8192-byte
snapshot mapped at host address 2 ^ 40, base guest address 0x10000000
already latched. -/
def wSnapState : SnapshotState :=
  { guestMemFileName := "snap", guestMemSize := 8192,
    guestMemHostBase := 1099511627776, mapped := true, userFaultFD := some 7,
    fdClosed := false, startAddress := 268435456, startAddressOnceDone := true }

/-- The install request expected for a fault at 0x10001000 on
wSnapState with 4096-byte pages. -/
def wCopy : UffdioCopy :=
  { mode := 0, copy := 0, src := 1099511631872, dst := 268439552, len := 4096 }

theorem servePageFault_install_args_witness :
    (4096 = 2 ^ 12 ∧ wSnapState.startAddressOnceDone = true ∧
      wSnapState.startAddress ≤ 268439552 ∧
      servePageFault 4096 wSnapState 268439552 = some wCopy) ∧
    (wCopy.src = wSnapState.guestMemHostBase + (268439552 - wSnapState.startAddress) ∧
      wCopy.dst = 268439552 - 268439552 % 4096 ∧
      wCopy.len = 4096 * 1 ∧
      wCopy.mode = 0) :=
  ⟨⟨by decide, by decide, by decide, by decide⟩,
    servePageFault_install_args 4096 12 wSnapState 268439552 wCopy (by decide)
      (by decide) (by decide) (by decide) (by decide) (by decide) (by decide)⟩

/-- C2 counterexample: with 4096-byte pages and an 8192-byte snapshot,
the unaligned fault at base + 8191 is served (an install request is
issued) although its offset 8191 violates
offset + pageSize <= guestMemSize (8191 + 4096 > 8192). -/
theorem serve_bound_counterexample :
    (servePageFault 4096 wSnapState 268443647).isSome = true ∧
    ¬(sub64 268443647 wSnapState.startAddress + 4096 ≤ wSnapState.guestMemSize) := by
  decide

/-- C2 (amended): the bound the code enforces on a served fault is
offset < guestMemSize (the Go bounds check on guestMem[offset]), not
offset + pageSize <= guestMemSize; the offset is unsigned so 0 <= offset
always holds; a fault at base + guestMemSize trips the fatal
index-out-of-range panic and no install is issued for it, while a fault
at base + guestMemSize - pageSize is served normally. -/
theorem serve_bound_amended (pageSize : Nat) (s : SnapshotState)
    (hbase : s.startAddress < 2 ^ 64) (hsize : s.guestMemSize < 2 ^ 64)
    (hp : 0 < pageSize) (hple : pageSize ≤ s.guestMemSize) :
    (∀ address, (servePageFault pageSize s address).isSome = true ↔
      sub64 address s.startAddress < s.guestMemSize) ∧
    servePageFault pageSize s (s.startAddress + s.guestMemSize) = none ∧
    (servePageFault pageSize s (s.startAddress + s.guestMemSize - pageSize)).isSome
      = true := by
  have hserve : ∀ address, (servePageFault pageSize s address).isSome = true ↔
      sub64 address s.startAddress < s.guestMemSize := by
    intro address
    by_cases hlt : sub64 address s.startAddress < s.guestMemSize
    · simp [servePageFault, hlt]
    · simp [servePageFault, hlt]
  refine ⟨hserve, ?_, ?_⟩
  · have hoff : sub64 (s.startAddress + s.guestMemSize) s.startAddress
        = s.guestMemSize := by
      unfold sub64
      have he : s.startAddress + s.guestMemSize + 2 ^ 64 - s.startAddress
          = s.guestMemSize + 2 ^ 64 := by
        omega
      rw [he, Nat.add_mod_right, Nat.mod_eq_of_lt hsize]
    simp [servePageFault, hoff]
  · rw [hserve]
    have he : s.startAddress + s.guestMemSize - pageSize + 2 ^ 64 - s.startAddress
        = (s.guestMemSize - pageSize) + 2 ^ 64 := by
      omega
    unfold sub64
    rw [he, Nat.add_mod_right, Nat.mod_eq_of_lt (by omega)]
    omega

theorem serve_bound_amended_witness :
    (wSnapState.startAddress < 2 ^ 64 ∧ wSnapState.guestMemSize < 2 ^ 64 ∧
      0 < 4096 ∧ 4096 ≤ wSnapState.guestMemSize) ∧
    ((∀ address, (servePageFault 4096 wSnapState address).isSome = true ↔
        sub64 address wSnapState.startAddress < wSnapState.guestMemSize) ∧
      servePageFault 4096 wSnapState
        (wSnapState.startAddress + wSnapState.guestMemSize) = none ∧
      (servePageFault 4096 wSnapState
        (wSnapState.startAddress + wSnapState.guestMemSize - 4096)).isSome = true) :=
  ⟨⟨by decide, by decide, by decide, by decide⟩,
    serve_bound_amended 4096 wSnapState (by decide) (by decide) (by decide) (by decide)⟩

/-- C10: the fault offset is computed by wrapping unsigned 64-bit
subtraction with no sign or range check: for a fault address below the
latched base the offset is the huge wrapped value
2 ^ 64 - (base - faultAddr), and servePageFault issues an install
exactly when that wrapped value is below guestMemSize instead of
rejecting the fault as negative. -/
theorem offset_wraps_no_sign_check (s : SnapshotState) (address : Nat)
    (h1 : address < s.startAddress) (h2 : s.startAddress < 2 ^ 64) :
    sub64 address s.startAddress = 2 ^ 64 - (s.startAddress - address) ∧
    ∀ pageSize, (servePageFault pageSize s address).isSome = true ↔
      2 ^ 64 - (s.startAddress - address) < s.guestMemSize := by
  have hoff : sub64 address s.startAddress = 2 ^ 64 - (s.startAddress - address) := by
    unfold sub64
    have he : address + 2 ^ 64 - s.startAddress
        = 2 ^ 64 - (s.startAddress - address) := by
      omega
    rw [he, Nat.mod_eq_of_lt (by omega)]
  refine ⟨hoff, ?_⟩
  intro pageSize
  by_cases hlt : 2 ^ 64 - (s.startAddress - address) < s.guestMemSize
  · simp [servePageFault, hoff, hlt]
  · simp [servePageFault, hoff, hlt]

theorem offset_wraps_no_sign_check_witness :
    (100 < wSnapState.startAddress ∧ wSnapState.startAddress < 2 ^ 64) ∧
    (sub64 100 wSnapState.startAddress
        = 2 ^ 64 - (wSnapState.startAddress - 100) ∧
      ∀ pageSize, (servePageFault pageSize wSnapState 100).isSome = true ↔
        2 ^ 64 - (wSnapState.startAddress - 100) < wSnapState.guestMemSize) :=
  ⟨⟨by decide, by decide⟩,
    offset_wraps_no_sign_check wSnapState 100 (by decide) (by decide)⟩

/-- SnapshotStateCfg, the input of RegisterVM. -/
structure SnapshotStateCfg where
  vmID : String
  guestMemFilePath : String
  guestMemSize : Nat
  deriving DecidableEq

/-- Modelled from the spec: NewSnapshotState(cfg) (its body is not in
src, only the call in RegisterVM).  Per spec section 3 the freshly
registered state is not yet mapped, has no userfault fd and its base
address is not yet latched. -/
def NewSnapshotState (cfg : SnapshotStateCfg) : SnapshotState :=
  { guestMemFileName := cfg.guestMemFilePath, guestMemSize := cfg.guestMemSize,
    guestMemHostBase := 0, mapped := false, userFaultFD := none,
    fdClosed := false, startAddress := 0, startAddressOnceDone := false }

/-- The error values the manager returns (errors.New strings in the
source, one constructor per distinct message or propagated failure
site). -/
inductive MMError where
  /-- errors.New with message: VM exists in the memory manager. -/
  | vmExists
  /-- errors.New with message: VM already active in the memory manager. -/
  | vmAlreadyActive
  /-- errors.New with message: VM not registered with the memory manager. -/
  | vmNotRegistered
  /-- errors.New with message: Failed to find fd. -/
  | fdNotFound
  /-- errors.New with message: Failed to find snapshot state. -/
  | stateNotFound
  /-- error propagated from state.mapGuestMemory (open or mmap failed). -/
  | mapFailed
  /-- error returned by syscall.EpollCtl. -/
  | epollCtlFailed
  /-- error propagated from state.unmapGuestMemory (munmap failed). -/
  | unmapFailed
  deriving DecidableEq

/-- struct MemoryManager: the three registry indices.  The struct
declares inactive, activeFdState (by fd) and activeVmFd (by vmID); the
method bodies also refer to the two active maps by their leftover names
snapStateMap and vmFdMap. -/
structure MemoryManager where
  inactive : List (String × SnapshotState)
  activeFdState : List (Int × SnapshotState)
  activeVmFd : List (String × Int)
  deriving DecidableEq

/-- NewMemoryManager initializes all three maps empty. -/
def emptyManager : MemoryManager :=
  { inactive := [], activeFdState := [], activeVmFd := [] }

/-- func (v *MemoryManager) RegisterVM(cfg *SnapshotStateCfg) error.
The Go method mutates v in place, so the embedding returns the manager
after the call together with the error (none on success). -/
def RegisterVM (v : MemoryManager) (cfg : SnapshotStateCfg) :
    MemoryManager × Option MMError :=
  if (mapLookup v.inactive cfg.vmID).isSome then (v, some MMError.vmExists)
  else if (mapLookup v.activeVmFd cfg.vmID).isSome then
    (v, some MMError.vmAlreadyActive)
  else
    ({ v with inactive := mapInsert v.inactive cfg.vmID (NewSnapshotState cfg) },
      none)

/-- Environment of one AddInstance call: outcomes of its fallible
external steps (mmap of the guest memory file and where it lands, the
userfault fd handed over by the hypervisor, EPOLL_CTL_ADD). -/
structure AddEnv where
  mapOk : Bool
  hostBase : Nat
  uffdFd : Option Int
  epollAddOk : Bool
  deriving DecidableEq

/-- func (v *MemoryManager) AddInstance(vmID) error.
Checks the inactive map, then the active vm index; maps guest memory
(on failure the error is returned with no state change); calls
state.getUFFD() DISCARDING any failure, so a missing fd yields
fd int -1 (os.File Fd() on a nil receiver); moves the state out of
inactive into both active maps; only then calls EpollCtl, and on its
failure returns the error with no rollback of the maps, no unmap and no
close of the fd. -/
def AddInstance (v : MemoryManager) (vmID : String) (env : AddEnv) :
    MemoryManager × Option MMError :=
  match mapLookup v.inactive vmID with
  | none => (v, some MMError.vmNotRegistered)
  | some state =>
    if (mapLookup v.activeVmFd vmID).isSome then (v, some MMError.vmExists)
    else if env.mapOk = false then (v, some MMError.mapFailed)
    else
      let state1 : SnapshotState :=
        { state with
          mapped := true, guestMemHostBase := env.hostBase,
          userFaultFD := env.uffdFd }
      let fdInt : Int :=
        match env.uffdFd with
        | some f => f
        | none => -1
      let v1 : MemoryManager :=
        { inactive := mapErase v.inactive vmID,
          activeFdState := mapInsert v.activeFdState fdInt state1,
          activeVmFd := mapInsert v.activeVmFd vmID fdInt }
      if env.epollAddOk = false then (v1, some MMError.epollCtlFailed)
      else (v1, none)

/-- Environment of one RemoveInstance call: outcomes of EPOLL_CTL_DEL
and munmap. -/
structure RemoveEnv where
  epollDelOk : Bool
  munmapOk : Bool
  deriving DecidableEq

/-- func (v *MemoryManager) RemoveInstance(vmID string) error.
As written the method FIRST requires vmID to be a key of the inactive
map (returning the VM-not-registered error otherwise) and only then
looks vmID up in the active vm index, so its success path needs vmID in
both maps at once.  On success it removes the fd from epoll, unmaps,
closes the fd and erases both active entries; the final source line
v.inactive = state does not type-check in Go (it assigns a single state
to the map field) and is modelled as its apparent intent, reinsertion
of the state under vmID - the branch is unreachable through the API
either way. -/
def RemoveInstance (v : MemoryManager) (vmID : String) (env : RemoveEnv) :
    MemoryManager × Option MMError :=
  if (mapLookup v.inactive vmID).isNone then (v, some MMError.vmNotRegistered)
  else
    match mapLookup v.activeVmFd vmID with
    | none => (v, some MMError.fdNotFound)
    | some fdInt =>
      match mapLookup v.activeFdState fdInt with
      | none => (v, some MMError.stateNotFound)
      | some state =>
        if env.epollDelOk = false then (v, some MMError.epollCtlFailed)
        else if env.munmapOk = false then (v, some MMError.unmapFailed)
        else
          let state1 : SnapshotState := { state with mapped := false, fdClosed := true }
          ({ inactive := mapInsert v.inactive vmID state1,
             activeFdState := mapErase v.activeFdState fdInt,
             activeVmFd := mapErase v.activeVmFd vmID }, none)

/-- func (v *MemoryManager) FetchState(vmID string) error: not
implemented, returns nil and changes nothing. -/
def FetchState (v : MemoryManager) (vmID : String) : MemoryManager × Option MMError :=
  (v, none)

/-- One manager API call together with the outcomes of its fallible
external steps. -/
inductive MMOp where
  | register (cfg : SnapshotStateCfg)
  | add (vmID : String) (env : AddEnv)
  | remove (vmID : String) (env : RemoveEnv)
  | fetch (vmID : String)

/-- Dispatch one manager operation. -/
def applyOp (v : MemoryManager) : MMOp → MemoryManager × Option MMError
  | MMOp.register cfg => RegisterVM v cfg
  | MMOp.add vmID env => AddInstance v vmID env
  | MMOp.remove vmID env => RemoveInstance v vmID env
  | MMOp.fetch vmID => FetchState v vmID

/-- A VMId is a key of at most one of the inactive map and the active
vm index: for every id at least one of the two lookups misses. -/
def VmDisjoint (v : MemoryManager) : Prop :=
  ∀ id : String, mapLookup v.inactive id = none ∨ mapLookup v.activeVmFd id = none

/-- C3: every manager operation (RegisterVM, AddInstance,
RemoveInstance, FetchState) preserves the invariant that each VMId is a
key of at most one of the inactive map and the active vm index. -/
theorem applyOp_preserves_vmDisjoint (v : MemoryManager) (op : MMOp)
    (hinv : VmDisjoint v) : VmDisjoint (applyOp v op).1 := by
  cases op with
  | register cfg =>
    show VmDisjoint (RegisterVM v cfg).1
    unfold RegisterVM
    by_cases h1 : (mapLookup v.inactive cfg.vmID).isSome
    · simpa [h1] using hinv
    · by_cases h2 : (mapLookup v.activeVmFd cfg.vmID).isSome
      · simpa [h1, h2] using hinv
      · simp only [h1, h2, if_false, Bool.false_eq_true]
        intro id
        by_cases hid : id = cfg.vmID
        · subst hid
          right
          simpa [Option.isSome_iff_ne_none] using h2
        · rcases hinv id with h | h
          · left
            simpa [mapLookup_insert_ne v.inactive cfg.vmID id _ hid] using h
          · right
            simpa using h
  | add vmID env =>
    show VmDisjoint (AddInstance v vmID env).1
    unfold AddInstance
    cases hin : mapLookup v.inactive vmID with
    | none => simpa using hinv
    | some st =>
      by_cases h2 : (mapLookup v.activeVmFd vmID).isSome
      · simpa [h2] using hinv
      · by_cases h3 : env.mapOk = false
        · simpa [h2, h3] using hinv
        · have core : VmDisjoint
              { inactive := mapErase v.inactive vmID,
                activeFdState := mapInsert v.activeFdState
                  (match env.uffdFd with | some f => f | none => -1)
                  { st with
                    mapped := true, guestMemHostBase := env.hostBase,
                    userFaultFD := env.uffdFd },
                activeVmFd := mapInsert v.activeVmFd vmID
                  (match env.uffdFd with | some f => f | none => -1) } := by
            intro id
            by_cases hid : id = vmID
            · subst hid
              left
              exact mapLookup_erase_self v.inactive id
            · rcases hinv id with h | h
              · left
                simpa [mapLookup_erase_ne v.inactive vmID id hid] using h
              · right
                simpa [mapLookup_insert_ne v.activeVmFd vmID id _ hid] using h
          by_cases h4 : env.epollAddOk = false
          · simpa [h2, h3, h4] using core
          · simpa [h2, h3, h4] using core
  | remove vmID env =>
    show VmDisjoint (RemoveInstance v vmID env).1
    unfold RemoveInstance
    by_cases h1 : (mapLookup v.inactive vmID).isNone
    · simpa [h1] using hinv
    · cases hvf : mapLookup v.activeVmFd vmID with
      | none => simpa [h1, hvf] using hinv
      | some fdInt =>
        cases hfs : mapLookup v.activeFdState fdInt with
        | none => simpa [h1, hvf, hfs] using hinv
        | some st =>
          by_cases h4 : env.epollDelOk = false
          · simpa [h1, hvf, hfs, h4] using hinv
          · by_cases h5 : env.munmapOk = false
            · simpa [h1, hvf, hfs, h4, h5] using hinv
            · simp only [h1, hvf, hfs, h4, h5, if_false, Bool.false_eq_true]
              intro id
              by_cases hid : id = vmID
              · subst hid
                right
                exact mapLookup_erase_self v.activeVmFd id
              · rcases hinv id with h | h
                · left
                  simpa [mapLookup_insert_ne v.inactive vmID id _ hid] using h
                · right
                  simpa [mapLookup_erase_ne v.activeVmFd vmID id hid] using h
  | fetch vmID => exact hinv

/-- Names and inputs shared by the concrete manager scenarios. -/
def vm1 : String := "vm1"

/-- Config registering vm1 with an 8192-byte snapshot file. -/
def wCfg : SnapshotStateCfg :=
  { vmID := vm1, guestMemFilePath := "vm1mem", guestMemSize := 8192 }

/-- All-success AddInstance environment: mmap lands at 2 ^ 40, the
hypervisor hands over fd 7, EPOLL_CTL_ADD succeeds. -/
def addEnvOk : AddEnv :=
  { mapOk := true, hostBase := 1099511627776, uffdFd := some 7, epollAddOk := true }

/-- All-success RemoveInstance environment. -/
def removeEnvOk : RemoveEnv := { epollDelOk := true, munmapOk := true }

/-- The manager after RegisterVM(vm1) on the empty manager. -/
def mgr1 : MemoryManager := (RegisterVM emptyManager wCfg).1

/-- The manager after the subsequent successful AddInstance(vm1). -/
def mgr2 : MemoryManager := (AddInstance mgr1 vm1 addEnvOk).1

theorem applyOp_preserves_vmDisjoint_witness :
    VmDisjoint emptyManager ∧
    VmDisjoint (applyOp emptyManager (MMOp.register wCfg)).1 :=
  ⟨fun _ => Or.inl rfl,
    applyOp_preserves_vmDisjoint emptyManager (MMOp.register wCfg)
      (fun _ => Or.inl rfl)⟩

/-- C5 (evaluation of the code at the failing input): Register(vm1) and
Add(vm1) succeed and vm1 is in the active vm index under fd 7, yet
RemoveInstance(vm1) returns the VM-not-registered error and changes no
state, because the method first requires vm1 to be a key of the
inactive map - which Add has just erased.  As written RemoveInstance
never reaches its NotActive-style check for an active VM. -/
theorem removeInstance_requires_inactive :
    (RegisterVM emptyManager wCfg).2 = none ∧
    (AddInstance mgr1 vm1 addEnvOk).2 = none ∧
    mapLookup mgr2.activeVmFd vm1 = some 7 ∧
    RemoveInstance mgr2 vm1 removeEnvOk = (mgr2, some MMError.vmNotRegistered) := by
  decide

/-- The state value sitting in the active fd index after the epoll-add
failure of C6: still mapped, fd never closed. -/
def wStateAfterAdd : SnapshotState :=
  { guestMemFileName := "vm1mem", guestMemSize := 8192,
    guestMemHostBase := 1099511627776, mapped := true, userFaultFD := some 7,
    fdClosed := false, startAddress := 0, startAddressOnceDone := false }

/-- AddInstance environment in which EPOLL_CTL_ADD fails. -/
def addEnvEpollFail : AddEnv :=
  { mapOk := true, hostBase := 1099511627776, uffdFd := some 7, epollAddOk := false }

/-- C6 (evaluation of the code at the failing input): when the
epoll-add step of AddInstance fails, the error is returned with no
cleanup at all - vm1 stays in both active maps (and out of inactive),
its guest memory is still mapped and its fd is not closed. -/
theorem addInstance_epoll_fail_no_rollback :
    (AddInstance mgr1 vm1 addEnvEpollFail).2 = some MMError.epollCtlFailed ∧
    mapLookup (AddInstance mgr1 vm1 addEnvEpollFail).1.inactive vm1 = none ∧
    mapLookup (AddInstance mgr1 vm1 addEnvEpollFail).1.activeVmFd vm1 = some 7 ∧
    mapLookup (AddInstance mgr1 vm1 addEnvEpollFail).1.activeFdState 7
      = some wStateAfterAdd ∧
    wStateAfterAdd.mapped = true ∧
    wStateAfterAdd.fdClosed = false := by
  decide

/-- AddInstance environment in which the hypervisor handoff of the
userfault fd fails (getUFFD does not produce an fd); epoll-add is left
to succeed to expose that the failure is swallowed. -/
def addEnvUffdFail : AddEnv :=
  { mapOk := true, hostBase := 1099511627776, uffdFd := none, epollAddOk := true }

/-- The state value activated by the C7 scenario: mapped, no fd. -/
def wStateNoUffd : SnapshotState :=
  { guestMemFileName := "vm1mem", guestMemSize := 8192,
    guestMemHostBase := 1099511627776, mapped := true, userFaultFD := none,
    fdClosed := false, startAddress := 0, startAddressOnceDone := false }

/-- C7 (evaluation of the code at the failing input): when obtaining
the userfault fd fails during AddInstance, the discarded getUFFD result
means the call still SUCCEEDS (nil error): vm1 is removed from the
inactive map and activated under fd -1 with its guest memory left
mapped - no unmap, no IoError, not left inactive. -/
theorem addInstance_uffd_fail_ignored :
    (AddInstance mgr1 vm1 addEnvUffdFail).2 = none ∧
    mapLookup (AddInstance mgr1 vm1 addEnvUffdFail).1.inactive vm1 = none ∧
    mapLookup (AddInstance mgr1 vm1 addEnvUffdFail).1.activeVmFd vm1 = some (-1) ∧
    mapLookup (AddInstance mgr1 vm1 addEnvUffdFail).1.activeFdState (-1)
      = some wStateNoUffd ∧
    wStateNoUffd.mapped = true := by
  decide

/-- state.startAddressOnce.Do(func() { state.startAddress = address })
in pollingLoop: sync.Once runs the closure only on its first call. -/
def latchStartAddress (s : SnapshotState) (address : Nat) : SnapshotState :=
  if s.startAddressOnceDone then s
  else { s with startAddress := address, startAddressOnceDone := true }

theorem foldl_latch_done (s : SnapshotState) (h : s.startAddressOnceDone = true)
    (l : List Nat) : l.foldl latchStartAddress s = s := by
  induction l with
  | nil => rfl
  | cons b t ih =>
    have hl : latchStartAddress s b = s := by
      simp [latchStartAddress, h]
    rw [List.foldl_cons, hl, ih]

/-- C4: starting from a state whose latch has not fired, processing any
nonempty sequence of observed fault addresses in order latches the base
exactly once, to the first observed address, and marks the latch done;
moreover every latch attempt on an already-latched state leaves it
unchanged. -/
theorem latch_first_fault (s : SnapshotState) (h : s.startAddressOnceDone = false)
    (a : Nat) (rest : List Nat) :
    ((a :: rest).foldl latchStartAddress s).startAddress = a ∧
    ((a :: rest).foldl latchStartAddress s).startAddressOnceDone = true ∧
    ∀ (t : SnapshotState) (b : Nat), t.startAddressOnceDone = true →
      latchStartAddress t b = t := by
  have hfirst : latchStartAddress s a
      = { s with startAddress := a, startAddressOnceDone := true } := by
    simp [latchStartAddress, h]
  have hfold : (a :: rest).foldl latchStartAddress s
      = { s with startAddress := a, startAddressOnceDone := true } := by
    rw [List.foldl_cons, hfirst]
    exact foldl_latch_done _ rfl rest
  refine ⟨by rw [hfold], by rw [hfold], ?_⟩
  intro t b ht
  simp [latchStartAddress, ht]

theorem latch_first_fault_witness :
    (NewSnapshotState wCfg).startAddressOnceDone = false ∧
    (([268435456, 268439552].foldl latchStartAddress
        (NewSnapshotState wCfg)).startAddress = 268435456 ∧
      ([268435456, 268439552].foldl latchStartAddress
        (NewSnapshotState wCfg)).startAddressOnceDone = true ∧
      ∀ (t : SnapshotState) (b : Nat), t.startAddressOnceDone = true →
        latchStartAddress t b = t) :=
  ⟨rfl, latch_first_fault (NewSnapshotState wCfg) rfl 268435456 [268439552]⟩

/-- Modelled from the spec: the expected userfault event kind, the
kernel ABI constant C.const_UFFD_EVENT_PAGEFAULT (0x12); the constant
is not in src, only its comparison against byte 0 of the message. -/
def UFFD_EVENT_PAGEFAULT : Nat := 18

/-- binary.LittleEndian.Uint64 on the first n bytes of a byte list:
least significant byte first. -/
def leUint64Aux : Nat → List Nat → Nat
  | 0, _ => 0
  | _ + 1, [] => 0
  | n + 1, b :: rest => b + 256 * leUint64Aux n rest

/-- binary.LittleEndian.Uint64: decodes the first 8 bytes. -/
def leUint64 (l : List Nat) : Nat := leUint64Aux 8 l

/-- func (v *MemoryManager) extractPageFaultAddress(fd int) uint64.
The read outcome is none on a read error and some bytes otherwise (at
most msgSize = C.sizeof_struct_uffd_msg bytes fit the buffer goMsg).
The log.Fatal terminations are modelled by returning none: read error,
nread different from the message size, or a byte 0 that is not the
PAGEFAULT event kind; otherwise the result is the little-endian uint64
at goMsg[16:]. -/
def extractPageFaultAddress (msgSize : Nat) (readResult : Option (List Nat)) :
    Option Nat :=
  match readResult with
  | none => none
  | some goMsg =>
    if goMsg.length ≠ msgSize then none
    else if goMsg.getD 0 0 ≠ UFFD_EVENT_PAGEFAULT then none
    else some (leUint64 (goMsg.drop 16))

/-- C8: reading one fault from a userfault fd terminates fatally iff
the read errs, the read is shorter than the fixed message size, or
byte 0 of the message is not the PAGEFAULT event kind; otherwise it
returns the 64-bit faulting address decoded little-endian from bytes
16..24 of the message. -/
theorem extractPageFaultAddress_spec (msgSize : Nat) (r : Option (List Nat))
    (hbuf : ∀ msg, r = some msg → msg.length ≤ msgSize) :
    (extractPageFaultAddress msgSize r = none ↔
      r = none ∨ ∃ msg, r = some msg ∧
        (msg.length < msgSize ∨ msg.getD 0 0 ≠ UFFD_EVENT_PAGEFAULT)) ∧
    (∀ msg b0 b1 b2 b3 b4 b5 b6 b7 rest, r = some msg →
      msg.length = msgSize → msg.getD 0 0 = UFFD_EVENT_PAGEFAULT →
      msg.drop 16 = b0 :: b1 :: b2 :: b3 :: b4 :: b5 :: b6 :: b7 :: rest →
      extractPageFaultAddress msgSize r =
        some (b0 + 256 * (b1 + 256 * (b2 + 256 * (b3 + 256 * (b4 + 256 *
          (b5 + 256 * (b6 + 256 * b7)))))))) := by
  constructor
  · cases r with
    | none => simp [extractPageFaultAddress]
    | some msg =>
      have hle : msg.length ≤ msgSize := hbuf msg rfl
      by_cases hlen : msg.length = msgSize
      · by_cases hev : msg.getD 0 0 = UFFD_EVENT_PAGEFAULT
        · simp [extractPageFaultAddress, hlen, hev]
        · simp [extractPageFaultAddress, hlen, hev]
      · have hlt : msg.length < msgSize := by omega
        simp [extractPageFaultAddress, hlen, hlt]
  · intro msg b0 b1 b2 b3 b4 b5 b6 b7 rest hr hlen hev hdrop
    subst hr
    have hle : leUint64 (b0 :: b1 :: b2 :: b3 :: b4 :: b5 :: b6 :: b7 :: rest)
        = b0 + 256 * (b1 + 256 * (b2 + 256 * (b3 + 256 * (b4 + 256 *
          (b5 + 256 * (b6 + 256 * (b7 + 256 * 0))))))) := rfl
    simp only [extractPageFaultAddress]
    rw [if_neg (fun hh => hh hlen), if_neg (fun hh => hh hev), hdrop, hle]
    congr 1

/-- The concrete 32-byte userfault message of the C8 witness: event
kind 0x12 in byte 0, fault address 0x10000000 little-endian in bytes
16..24. -/
def wMsg : List Nat :=
  [18, 0, 0, 0, 0, 0, 0, 0,
   0, 0, 0, 0, 0, 0, 0, 0,
   0, 0, 0, 16, 0, 0, 0, 0,
   0, 0, 0, 0, 0, 0, 0, 0]

theorem extractPageFaultAddress_spec_witness :
    extractPageFaultAddress 32 (some wMsg) = some 268435456 := by
  have h := extractPageFaultAddress_spec 32 (some wMsg)
    (by
      intro msg hm
      cases hm
      decide)
  have h2 := h.2 wMsg 0 0 0 16 0 0 0 0 [0, 0, 0, 0, 0, 0, 0, 0] rfl
    (by decide) (by decide) (by decide)
  rw [h2]

/-- The inner for-loop body of pollingLoop over the epoll event slots
(only the Fd field of a slot is consulted): for each slot the state is
looked up by fd in activeFdState - a miss is log.Fatalf, modelled by
the Boolean fatal flag that stops the iteration - and otherwise one
fault message is read from that fd (the fd is appended to the returned
read list). -/
def processEventSlots (active : List (Int × SnapshotState)) :
    List Int → List Int × Bool
  | [] => ([], false)
  | fd :: rest =>
    if (mapLookup active fd).isSome then
      let r := processEventSlots active rest
      (fd :: r.1, r.2)
    else ([], true)

/-- for _, event := range events in pollingLoop ranges over the WHOLE
1000-entry events array, not over events[:nevents]; slots beyond the
ready count keep their zero value, whose Fd is 0. -/
def eventsArraySlots (ready : List Int) : List Int :=
  ready ++ List.replicate (1000 - ready.length) 0

/-- The single active VM of the C9 scenario, registered under fd 5. -/
def wActive : List (Int × SnapshotState) := [(5, wSnapState)]

/-- C9 (evaluation of the code at the failing input): with one active
VM under fd 5 and epoll-wait reporting exactly one ready event (fd 5),
the loop body iterates over all 1000 array slots: it reads the one
ready fd and then hits the fatal lookup-miss path on the first stale
zero slot (fd 0), even though every ready event had an active fd.
Iterating only the ready prefix would read fd 5 once with no fatal. -/
theorem pollingLoop_ranges_whole_array :
    processEventSlots wActive (eventsArraySlots [5]) = ([5], true) ∧
    processEventSlots wActive [5] = ([5], false) := by
  constructor
  · rfl
  · rfl

end VhiveMM
